import Mathlib

/-!
Shallow embedding of `src/handler.py` (a Vimeo catalog puller and record
transformer) together with proofs of the behavioural properties stated in
the specification.

Modelling conventions:
* The network is replaced by a *script*: a list of `Response` values, one per
  HTTP request, consumed in order.  `pull_videos` pops the head of the script
  for each request it makes; an empty script means the environment has no
  further answer and the run is cut off with a distinguished error.
* Fatal termination (`sys.exit(1)` via `fatal`) is modelled as an
  `Except.error` carrying the data of the logged message.
* Python string comparison (`>` on `modified_time`) is lexicographic on code
  points, exactly Lean's `String` order, so cutoff comparison is `String.lt`.
* Python truthiness on strings (`if self.modified_after:` at line 61 and
  `if next_page:` at line 69) is modelled explicitly: `none` and `some ""`
  are both falsy.
* Sleeps have no effect on the accumulated state; the duration computation of
  lines 80–87 is modelled separately as `backoff_sleep`.
-/

/-- `VimeoVideos.max_retries` (line 23). -/
def max_retries : Nat := 5

/-- `VimeoVideos.page_size` (line 28). -/
def page_size : Nat := 100

/-- `VimeoVideos.api_base` (line 30). -/
def api_base : String := "https://api.vimeo.com"

/-- One thumbnail descriptor from `pictures.sizes`: fields `width`, `height`,
`link` (lines 127–134). -/
structure Picture where
  width : Int
  height : Int
  link : String
deriving DecidableEq, Repr

/-- One rendition descriptor from `files`: fields `type`, `link`, `size`
(lines 136–139). -/
structure FileDesc where
  type : String
  link : String
  size : Int
deriving DecidableEq, Repr

/-- One raw video record as returned by the remote API, with the fields the
handler reads (`v["type"]`, `v["name"]`, `v["duration"]`, `v["description"]`,
`v["release_time"]`, `v["tags"]`, `v["uri"]`, `v["pictures"]["sizes"]`,
`v["files"]`, `v["modified_time"]`). -/
structure Video where
  type : String
  name : String
  duration : Int
  description : String
  release_time : String
  tags : List String
  uri : String
  pictures : List Picture
  files : List FileDesc
  modified_time : String
deriving DecidableEq, Repr

/-- One scripted HTTP response.  `status` is the HTTP status code; `data` and
`next` model the decoded JSON body `\x7bdata: [...], paging: \x7bnext: ...\x7d\x7d`, read
only in the 200 branch (`next := none` models JSON `null`). -/
structure Response where
  status : Nat
  data : List Video := []
  next : Option String := none
deriving DecidableEq, Repr

/-- The ways a run can fail: `noResponse` cuts off a run whose script is
exhausted; `retriesExhausted r` models `fatal` at line 78 with the message
naming the retry count `r`; `fatalStatus url s` models `fatal` at line 94
with the message naming the requested URL and the status code `s`. -/
inductive Err
  | noResponse (url : String)
  | retriesExhausted (retried : Nat)
  | fatalStatus (url : String) (status : Nat)
deriving DecidableEq, Repr

/-- Outcome of a run of `pull_videos`: the list of URLs requested in order
(`trace`), the final value of `self.retried`, and either the final
`self.videos` or the fatal error. -/
structure FetchOutcome where
  trace : List String
  retried : Nat
  result : Except Err (List Video)
deriving Repr

/-- Python truthiness of the optional string `next_page` (line 69): `None`
and the empty string are falsy. -/
def truthyNext : Option String → Bool
  | none => false
  | some s => !(s = "")

/-- Lines 61–65: the records of one page that are appended to `self.videos`.
Line 61 tests `if self.modified_after:` — Python truthiness, so an absent or
empty-string cutoff keeps every record; otherwise line 63 keeps the records
with `v["modified_time"] > self.modified_after` (lexicographic comparison on
code points, stated on the strings' character lists, which is exactly
Python's string order and Lean's `String` order via `String.lt_iff_toList_lt`). -/
def keepFiltered (ma : Option String) (data : List Video) : List Video :=
  match ma with
  | none => data
  | some c =>
      if c = "" then data
      else data.filter (fun v => decide (c.data < v.modified_time.data))

/-- `VimeoVideos.pull_videos` (lines 46–94), with the recursion made explicit
over the response script and the mutable fields `self.videos` / `self.retried`
threaded as arguments.  Each request records its URL in the trace.  The
200 branch appends the (possibly cutoff-filtered) page data and follows a
truthy `paging.next` by requesting `api_base ++ next`; the 429 branch
increments the retry counter, fails fatally when it reaches `max_retries`,
and otherwise re-requests the *same* URL (the sleep of lines 80–87 does not
affect the state and is modelled separately by `backoff_sleep`); any other
status fails fatally naming the URL and the status code. -/
def pull_videos (ma : Option String) : List Response → String → List Video → Nat → FetchOutcome
  | [], url, _videos, retried =>
      ⟨[url], retried, Except.error (Err.noResponse url)⟩
  | resp :: rest, url, videos, retried =>
      if resp.status = 200 then
        let videos2 := videos ++ keepFiltered ma resp.data
        if truthyNext resp.next then
          let o := pull_videos ma rest (api_base ++ (resp.next.getD "")) videos2 retried
          ⟨url :: o.trace, o.retried, o.result⟩
        else
          ⟨[url], retried, Except.ok videos2⟩
      else if resp.status = 429 then
        let retried2 := retried + 1
        if max_retries ≤ retried2 then
          ⟨[url], retried2, Except.error (Err.retriesExhausted retried2)⟩
        else
          let o := pull_videos ma rest url videos retried2
          ⟨url :: o.trace, o.retried, o.result⟩
      else
        ⟨[url], retried, Except.error (Err.fatalStatus url resp.status)⟩

/-- The first-page URL built at line 51:
`f-string api_base/me/videos?per_page=page_size&page=1`. -/
def first_url : String := api_base ++ "/me/videos?per_page=" ++ toString page_size ++ "&page=1"

/-- A whole invocation of the fetcher as `extract_vimeo` performs it
(lines 98–99): fresh state `videos = []`, `retried = 0`, starting from the
first page URL. -/
def pull_videos_first (ma : Option String) (script : List Response) : FetchOutcome :=
  pull_videos ma script first_url [] 0

/-- Sleep duration computed by lines 80–87 for a 429 response, in seconds.
`header` is the parse result of the `X-RateLimit-Reset` header (`none` when
the header is absent or unparsable, in which case `strptime` raises and the
handler sleeps 5 seconds).  When the header parses, the source runs
`reset_time = datetime.strptime(h, fmt).utcnow()`: `utcnow` is a classmethod,
so this call returns the *current* time and discards the parsed value.  We
model the two clock reads as `t1` (inside line 82) and `t2` (line 83), with
`t1 ≤ t2`; `offset = reset_time - t2 = t1 - t2`, and `time.sleep` raises
`ValueError` on a negative argument, which the `except` turns into the fixed
5-second sleep. -/
def backoff_sleep (header : Option Int) (t1 t2 : Int) : Int :=
  match header with
  | none => 5
  | some _ =>
      let reset_time := t1
      let offset := reset_time - t2
      if offset < 0 then 5 else offset

/-- Line 116: `v.get('uri', '').rsplit('/', 1)[1]`.  When the URI contains a
`/`, `rsplit('/', 1)` yields two pieces and `[1]` is the substring after the
last slash; when it contains no slash (in particular when it is empty) the
list has one element and `[1]` raises `IndexError`, modelled as `none`. -/
def srcIdOfUri (s : String) : Option String :=
  if s.data.contains '/' then
    some (String.mk (s.data.reverse.takeWhile (fun c => !(c = '/'))).reverse)
  else
    none

/-- The `Thumbnails` dictionary plus the two video-level thumbnail keys that
lines 128–134 fill in lockstep with it (`ThumbnailSource` and
`SourceThumbnailSource` are always assigned the same link as
`Thumbnails['source']`, in the same statement, so one `source` field models
all three). -/
structure Thumbs where
  source : Option String := none
  large : Option String := none
  medium : Option String := none
  small : Option String := none
deriving DecidableEq, Repr

/-- One iteration of the picture loop (lines 127–134): the if/elif chain
classifies the descriptor and overwrites the matching tier's entry (so a
later descriptor in the same tier wins); a descriptor matching no branch
leaves the state unchanged. -/
def applyPic (t : Thumbs) (p : Picture) : Thumbs :=
  if p.width = 1280 ∨ p.height = 720 then
    { t with source := some p.link, large := some p.link }
  else if p.width = 640 ∨ p.height = 360 then
    { t with medium := some p.link }
  else if p.width = 295 ∨ p.height = 166 then
    { t with small := some p.link }
  else
    t

/-- One output file entry (lines 136–139); `type` models the JSON key
written as capitalised Type in the source, which Lean reserves. -/
structure OutputFile where
  type : String
  URL : String
  Size : String
deriving DecidableEq, Repr

/-- The normalized output record built by the loop body of `extract_vimeo`
(lines 103–141).  `ThumbnailSource` duplicates `Thumbnails.source` as in the
source (line 129).  `type` models the JSON key written as capitalised Type
in the source, which Lean reserves. -/
structure OutputRecord where
  type : String
  AppId : String
  Title : String
  DurationSeconds : String
  DataSource : String
  SourceDescription : String
  SourceDateUploaded : String
  Published : String
  Tag : String
  Files : List OutputFile
  Thumbnails : Thumbs
  SourceId : String
  OriginalFilename : String
  ThumbnailSource : Option String
  SourceThumbnailSource : Option String
deriving DecidableEq, Repr

/-- The body of the per-record loop of `extract_vimeo` (lines 102–141) for a
single raw record: `none` when the source id cannot be resolved (the record
is logged and skipped, line 117–120), otherwise the built output record. -/
def transformOne (appId : String) (v : Video) : Option OutputRecord :=
  match srcIdOfUri v.uri with
  | none => none
  | some source_id =>
      some { type := v.type
             AppId := appId
             Title := v.name
             DurationSeconds := toString v.duration
             DataSource := "Vimeo"
             SourceDescription := v.description
             SourceDateUploaded := v.release_time
             Published := "Published"
             Tag := String.intercalate "|" v.tags
             Files := v.files.map (fun f => ⟨f.type, f.link, toString f.size⟩)
             Thumbnails := v.pictures.foldl applyPic {}
             SourceId := source_id
             OriginalFilename := "Vimeo" ++ source_id
             ThumbnailSource := (v.pictures.foldl applyPic {}).source
             SourceThumbnailSource := (v.pictures.foldl applyPic {}).source }

/-- The whole transformation loop of `extract_vimeo` over the accumulated
videos: skipped records contribute nothing, every other record contributes
its output record, in order. -/
def transformVideos (appId : String) (videos : List Video) : List OutputRecord :=
  videos.filterMap (transformOne appId)

/-- The inbound event of `extract_vimeo` (lines 97–98, 104): optional
`modifiedAfter` cutoff and optional `AppId`. -/
structure Event where
  modifiedAfter : Option String := none
  AppId : Option String := none
deriving DecidableEq, Repr

/-- `extract_vimeo` (lines 97–144) end to end: pull all pages from the
scripted environment, then transform the accumulated records.  A fatal pull
aborts the invocation with no partial result. -/
def extract_vimeo (event : Event) (script : List Response) : Except Err (List OutputRecord) :=
  (pull_videos_first event.modifiedAfter script).result.map
    (transformVideos (event.AppId.getD "UnknownAppId"))

/-! Specification-side functions, written from the spec's sentences and used
to state the claims against the embedded code. -/

/-- Keep-predicate form of the cutoff filter: `true` exactly when the code
would append the record. -/
def keepP (ma : Option String) (v : Video) : Bool :=
  match ma with
  | none => true
  | some c => if c = "" then true else decide (c.data < v.modified_time.data)

/-- The records a run starting with counter value `retried` appends to the
accumulator while consuming `script`: each 200 page contributes its filtered
`data` exactly once, a 429 contributes nothing, and consumption stops at a
final page, at budget exhaustion, or at an unexpected status.  Independent of
the URL and of the records accumulated so far. -/
def newRecords (ma : Option String) : List Response → Nat → List Video
  | [], _ => []
  | r :: rest, retried =>
      if r.status = 200 then
        keepFiltered ma r.data ++
          (if truthyNext r.next then newRecords ma rest retried else [])
      else if r.status = 429 then
        (if max_retries ≤ retried + 1 then [] else newRecords ma rest (retried + 1))
      else []

/-- How many 429 responses a run starting with counter value `retried`
consumes from `script` (each one increments the shared counter). -/
def consumed429s : List Response → Nat → Nat
  | [], _ => 0
  | r :: rest, retried =>
      if r.status = 200 then
        (if truthyNext r.next then consumed429s rest retried else 0)
      else if r.status = 429 then
        1 + (if max_retries ≤ retried + 1 then 0 else consumed429s rest (retried + 1))
      else 0

/-- A script that is a complete, all-success pagination: every response is a
200, every page but the last carries a truthy `next` cursor, and the last
page's `next` is null/empty. -/
def isCleanScript : List Response → Bool
  | [] => false
  | r :: rest =>
      r.status == 200 &&
        (match rest with
         | [] => !truthyNext r.next
         | _ :: _ => truthyNext r.next && isCleanScript rest)

/-- All filtered page data of a script, in page order. -/
def cleanData (ma : Option String) : List Response → List Video
  | [] => []
  | r :: rest => keepFiltered ma r.data ++ cleanData ma rest

/-- Total number of records across the `data` arrays of a script. -/
def totalDataLen : List Response → Nat
  | [] => 0
  | r :: rest => r.data.length + totalDataLen rest

/-- Number of records the cutoff filter excludes across a script. -/
def excludedCount (ma : Option String) : List Response → Nat
  | [] => 0
  | r :: rest => (r.data.filter (fun v => !keepP ma v)).length + excludedCount ma rest

/-- Thumbnail size tiers of the spec's classification table. -/
inductive Tier
  | large
  | medium
  | small
deriving DecidableEq, Repr

/-- The spec's ordered classification of one descriptor: width 1280 or
height 720 is large; otherwise width 640 or height 360 is medium; otherwise
width 295 or height 166 is small; otherwise the descriptor is ignored. -/
def classifyPic (p : Picture) : Option Tier :=
  if p.width = 1280 ∨ p.height = 720 then some Tier.large
  else if p.width = 640 ∨ p.height = 360 then some Tier.medium
  else if p.width = 295 ∨ p.height = 166 then some Tier.small
  else none

/-- The link of the last descriptor of the list classified into tier `t`
(the spec's last-one-wins rule), `none` when no descriptor matches. -/
def lastMatch (t : Tier) (pics : List Picture) : Option String :=
  (pics.reverse.find? (fun p => decide (classifyPic p = some t))).map Picture.link

/-! Concrete sample data used by witnesses and counterexamples. -/

/-- A scripted 429 rate-limit response. -/
def rl429 : Response := { status := 429 }

/-- A scripted 500 response. -/
def resp500 : Response := { status := 500 }

/-- A scripted 200 page with the given data and next cursor. -/
def okPage (data : List Video) (next : Option String) : Response :=
  { status := 200, data := data, next := next }

/-- An ordinary raw record with a well-formed URI. -/
def sampleVideo : Video :=
  { type := "video"
    name := "Sample"
    duration := 90
    description := "d"
    release_time := "2020-01-01T00:00:00+00:00"
    tags := ["a", "b"]
    uri := "/videos/123"
    pictures := []
    files := []
    modified_time := "2021-06-01T00:00:00+00:00" }

/-- A raw record whose modification timestamp is the empty string. -/
def blankVideo : Video :=
  { sampleVideo with uri := "/videos/9", modified_time := "" }

/-- A raw record with an empty URI (no path segment). -/
def badVideo : Video :=
  { sampleVideo with uri := "" }

/-- A raw record whose URI ends in a slash. -/
def slashVideo : Video :=
  { sampleVideo with uri := "/videos/" }

/-- The output record `transformOne "a" sampleVideo` builds. -/
def sampleOut : OutputRecord :=
  { type := "video"
    AppId := "a"
    Title := "Sample"
    DurationSeconds := "90"
    DataSource := "Vimeo"
    SourceDescription := "d"
    SourceDateUploaded := "2020-01-01T00:00:00+00:00"
    Published := "Published"
    Tag := "a|b"
    Files := []
    Thumbnails := {}
    SourceId := "123"
    OriginalFilename := "Vimeo123"
    ThumbnailSource := none
    SourceThumbnailSource := none }

/-- A thumbnail descriptor that matches no size tier. -/
def picIgnored : Picture := { width := 10, height := 10, link := "x" }

/-! Helper lemmas: branch equations for `pull_videos` and the structural
facts the claims are proved from. -/

theorem pull_nil (ma : Option String) (url : String) (videos : List Video) (retried : Nat) :
    pull_videos ma [] url videos retried = ⟨[url], retried, Except.error (Err.noResponse url)⟩ :=
  rfl

theorem pull_ok_next (ma : Option String) (resp : Response) (rest : List Response)
    (url : String) (videos : List Video) (retried : Nat)
    (h : resp.status = 200) (hn : truthyNext resp.next = true) :
    pull_videos ma (resp :: rest) url videos retried =
      ⟨url :: (pull_videos ma rest (api_base ++ resp.next.getD "")
                (videos ++ keepFiltered ma resp.data) retried).trace,
       (pull_videos ma rest (api_base ++ resp.next.getD "")
                (videos ++ keepFiltered ma resp.data) retried).retried,
       (pull_videos ma rest (api_base ++ resp.next.getD "")
                (videos ++ keepFiltered ma resp.data) retried).result⟩ := by
  simp [pull_videos, h, hn]

theorem pull_ok_last (ma : Option String) (resp : Response) (rest : List Response)
    (url : String) (videos : List Video) (retried : Nat)
    (h : resp.status = 200) (hn : truthyNext resp.next = false) :
    pull_videos ma (resp :: rest) url videos retried =
      ⟨[url], retried, Except.ok (videos ++ keepFiltered ma resp.data)⟩ := by
  simp [pull_videos, h, hn]

theorem pull_429_retry (ma : Option String) (resp : Response) (rest : List Response)
    (url : String) (videos : List Video) (retried : Nat)
    (h : resp.status = 429) (hb : retried + 1 < max_retries) :
    pull_videos ma (resp :: rest) url videos retried =
      ⟨url :: (pull_videos ma rest url videos (retried + 1)).trace,
       (pull_videos ma rest url videos (retried + 1)).retried,
       (pull_videos ma rest url videos (retried + 1)).result⟩ := by
  have hb' : ¬ max_retries ≤ retried + 1 := Nat.not_le_of_lt hb
  simp [pull_videos, h, hb']

theorem pull_429_fatal (ma : Option String) (resp : Response) (rest : List Response)
    (url : String) (videos : List Video) (retried : Nat)
    (h : resp.status = 429) (hb : max_retries ≤ retried + 1) :
    pull_videos ma (resp :: rest) url videos retried =
      ⟨[url], retried + 1, Except.error (Err.retriesExhausted (retried + 1))⟩ := by
  simp [pull_videos, h, hb]

theorem pull_other (ma : Option String) (resp : Response) (rest : List Response)
    (url : String) (videos : List Video) (retried : Nat)
    (h1 : ¬ resp.status = 200) (h2 : ¬ resp.status = 429) :
    pull_videos ma (resp :: rest) url videos retried =
      ⟨[url], retried, Except.error (Err.fatalStatus url resp.status)⟩ := by
  simp [pull_videos, h1, h2]

/-- Whenever a run returns the accumulated videos, they are exactly the
initial accumulator followed by `newRecords`: nothing already collected is
dropped or re-appended, and the new part does not depend on the accumulator
or the URL. -/
theorem pull_result_append (ma : Option String) :
    ∀ (script : List Response) (url : String) (videos : List Video) (retried : Nat)
      (vs : List Video),
      (pull_videos ma script url videos retried).result = Except.ok vs →
      vs = videos ++ newRecords ma script retried := by
  intro script
  induction script with
  | nil =>
      intro url videos retried vs hok
      simp [pull_nil] at hok
  | cons resp rest ih =>
      intro url videos retried vs hok
      by_cases h200 : resp.status = 200
      · by_cases hn : truthyNext resp.next = true
        · rw [pull_ok_next ma resp rest url videos retried h200 hn] at hok
          have := ih _ _ _ _ hok
          simp [newRecords, h200, hn, this, List.append_assoc]
        · have hn' : truthyNext resp.next = false := by
            revert hn; cases truthyNext resp.next <;> simp
          rw [pull_ok_last ma resp rest url videos retried h200 hn'] at hok
          simp at hok
          simp [newRecords, h200, hn', ← hok]
      · by_cases h429 : resp.status = 429
        · by_cases hb : max_retries ≤ retried + 1
          · rw [pull_429_fatal ma resp rest url videos retried h429 hb] at hok
            simp at hok
          · have hb' : retried + 1 < max_retries := Nat.lt_of_not_le hb
            rw [pull_429_retry ma resp rest url videos retried h429 hb'] at hok
            have := ih _ _ _ _ hok
            simp [newRecords, h200, h429, hb, this]
        · rw [pull_other ma resp rest url videos retried h200 h429] at hok
          simp at hok

/-- The retry counter is exactly the initial counter plus the number of 429
responses consumed: it grows by one on each 429 and is never reset, across
page boundaries included. -/
theorem pull_retried_eq (ma : Option String) :
    ∀ (script : List Response) (url : String) (videos : List Video) (retried : Nat),
      (pull_videos ma script url videos retried).retried =
        retried + consumed429s script retried := by
  intro script
  induction script with
  | nil => intro url videos retried; simp [pull_nil, consumed429s]
  | cons resp rest ih =>
      intro url videos retried
      by_cases h200 : resp.status = 200
      · by_cases hn : truthyNext resp.next = true
        · rw [pull_ok_next ma resp rest url videos retried h200 hn]
          simp [consumed429s, h200, hn, ih]
        · have hn' : truthyNext resp.next = false := by
            revert hn; cases truthyNext resp.next <;> simp
          rw [pull_ok_last ma resp rest url videos retried h200 hn']
          simp [consumed429s, h200, hn']
      · by_cases h429 : resp.status = 429
        · by_cases hb : max_retries ≤ retried + 1
          · rw [pull_429_fatal ma resp rest url videos retried h429 hb]
            simp [consumed429s, h200, h429, hb]
          · have hb' : retried + 1 < max_retries := Nat.lt_of_not_le hb
            rw [pull_429_retry ma resp rest url videos retried h429 hb']
            simp [consumed429s, h200, h429, hb, ih]
            omega
        · rw [pull_other ma resp rest url videos retried h200 h429]
          simp [consumed429s, h200, h429]

/-- Every run requests its starting URL first. -/
theorem pull_trace_cons (ma : Option String) :
    ∀ (script : List Response) (url : String) (videos : List Video) (retried : Nat),
      ∃ t, (pull_videos ma script url videos retried).trace = url :: t := by
  intro script url videos retried
  cases script with
  | nil => exact ⟨[], rfl⟩
  | cons resp rest =>
      by_cases h200 : resp.status = 200
      · by_cases hn : truthyNext resp.next = true
        · rw [pull_ok_next ma resp rest url videos retried h200 hn]
          exact ⟨_, rfl⟩
        · have hn' : truthyNext resp.next = false := by
            revert hn; cases truthyNext resp.next <;> simp
          rw [pull_ok_last ma resp rest url videos retried h200 hn']
          exact ⟨[], rfl⟩
      · by_cases h429 : resp.status = 429
        · by_cases hb : max_retries ≤ retried + 1
          · rw [pull_429_fatal ma resp rest url videos retried h429 hb]
            exact ⟨[], rfl⟩
          · have hb' : retried + 1 < max_retries := Nat.lt_of_not_le hb
            rw [pull_429_retry ma resp rest url videos retried h429 hb']
            exact ⟨_, rfl⟩
        · rw [pull_other ma resp rest url videos retried h200 h429]
          exact ⟨[], rfl⟩

/-- The cutoff filter in keep-predicate form. -/
theorem keepFiltered_eq_filter (ma : Option String) (data : List Video) :
    keepFiltered ma data = data.filter (keepP ma) := by
  cases ma with
  | none =>
      have h : keepP (none : Option String) = fun _ => true := rfl
      simp [keepFiltered, h]
  | some c =>
      by_cases hc : c = ""
      · subst hc
        have h : keepP (some "") = fun _ => true := by
          funext v; simp [keepP]
        simp [keepFiltered, h]
      · have h : keepP (some c) = fun v => decide (c.data < v.modified_time.data) := by
          funext v; simp [keepP, hc]
        simp [keepFiltered, hc, h]

/-- A record the filter keeps under a non-empty cutoff really is newer than
the cutoff. -/
theorem mem_keepFiltered_lt (c : String) (hc : ¬ c = "") (data : List Video)
    (v : Video) (hv : v ∈ keepFiltered (some c) data) : c < v.modified_time := by
  rw [keepFiltered_eq_filter] at hv
  have h := List.of_mem_filter hv
  rw [String.lt_iff_toList_lt]
  simpa [keepP, hc] using h

/-- Every record `newRecords` produces under a non-empty cutoff is newer than
the cutoff. -/
theorem mem_newRecords_lt (c : String) (hc : ¬ c = "") :
    ∀ (script : List Response) (retried : Nat) (v : Video),
      v ∈ newRecords (some c) script retried → c < v.modified_time := by
  intro script
  induction script with
  | nil => intro retried v hv; simp [newRecords] at hv
  | cons resp rest ih =>
      intro retried v hv
      by_cases h200 : resp.status = 200
      · simp only [newRecords, h200, if_pos] at hv
        rcases List.mem_append.mp hv with hkeep | htail
        · exact mem_keepFiltered_lt c hc _ v hkeep
        · by_cases hn : truthyNext resp.next = true
          · rw [if_pos hn] at htail
            exact ih retried v htail
          · simp [hn] at htail
      · by_cases h429 : resp.status = 429
        · simp only [newRecords, h200, h429, if_neg, if_pos] at hv
          by_cases hb : max_retries ≤ retried + 1
          · simp [hb] at hv
          · rw [if_neg hb] at hv
            exact ih (retried + 1) v hv
        · simp [newRecords, h200, h429] at hv

/-- A clean all-success pagination runs to completion, appending exactly the
filtered data of every page and leaving the retry counter untouched. -/
theorem pull_clean_run (ma : Option String) :
    ∀ (script : List Response), isCleanScript script = true →
      ∀ (url : String) (videos : List Video) (retried : Nat),
        (pull_videos ma script url videos retried).result =
            Except.ok (videos ++ cleanData ma script) ∧
          (pull_videos ma script url videos retried).retried = retried := by
  intro script
  induction script with
  | nil => intro hclean; simp [isCleanScript] at hclean
  | cons resp rest ih =>
      intro hclean url videos retried
      cases rest with
      | nil =>
          simp only [isCleanScript, Bool.and_eq_true, beq_iff_eq] at hclean
          obtain ⟨h200, hn⟩ := hclean
          have hn' : truthyNext resp.next = false := by
            revert hn; cases truthyNext resp.next <;> simp
          rw [pull_ok_last ma resp [] url videos retried h200 hn']
          simp [cleanData]
      | cons r2 rest2 =>
          simp only [isCleanScript, Bool.and_eq_true, beq_iff_eq] at hclean
          obtain ⟨h200, hn, hclean2⟩ := hclean
          rw [pull_ok_next ma resp (r2 :: rest2) url videos retried h200 hn]
          have := ih (by simpa [isCleanScript] using hclean2) (api_base ++ resp.next.getD "")
            (videos ++ keepFiltered ma resp.data) retried
          simp [cleanData, List.append_assoc, this.1, this.2]

/-- Length accounting for a script: kept plus excluded records add up to all
records. -/
theorem cleanData_length_add_excluded (ma : Option String) :
    ∀ (script : List Response),
      (cleanData ma script).length + excludedCount ma script = totalDataLen script := by
  intro script
  induction script with
  | nil => simp [cleanData, excludedCount, totalDataLen]
  | cons resp rest ih =>
      have hpage : (keepFiltered ma resp.data).length +
          (resp.data.filter (fun v => !keepP ma v)).length = resp.data.length := by
        rw [keepFiltered_eq_filter]
        exact (List.length_eq_length_filter_add (keepP ma)).symm
      simp only [cleanData, excludedCount, totalDataLen, List.length_append]
      omega

/-- Unfolding of `lastMatch` over a leading descriptor: the rest of the list
wins when it has a match, otherwise the leading descriptor supplies the link
exactly when it classifies into the tier. -/
theorem lastMatch_cons (t : Tier) (p : Picture) (ps : List Picture) :
    lastMatch t (p :: ps) =
      (lastMatch t ps).or (if classifyPic p = some t then some p.link else none) := by
  simp only [lastMatch, List.reverse_cons, List.find?_append]
  cases hfind : ps.reverse.find? (fun q => decide (classifyPic q = some t)) <;>
    by_cases hp : classifyPic p = some t <;>
      simp [hfind, hp, List.find?]

theorem applyPic_source (st : Thumbs) (p : Picture) :
    (applyPic st p).source =
      if classifyPic p = some Tier.large then some p.link else st.source := by
  unfold applyPic classifyPic
  split_ifs <;> simp_all

theorem applyPic_large (st : Thumbs) (p : Picture) :
    (applyPic st p).large =
      if classifyPic p = some Tier.large then some p.link else st.large := by
  unfold applyPic classifyPic
  split_ifs <;> simp_all

theorem applyPic_medium (st : Thumbs) (p : Picture) :
    (applyPic st p).medium =
      if classifyPic p = some Tier.medium then some p.link else st.medium := by
  unfold applyPic classifyPic
  split_ifs <;> simp_all

theorem applyPic_small (st : Thumbs) (p : Picture) :
    (applyPic st p).small =
      if classifyPic p = some Tier.small then some p.link else st.small := by
  unfold applyPic classifyPic
  split_ifs <;> simp_all

theorem foldl_applyPic_large :
    ∀ (pics : List Picture) (st : Thumbs),
      (pics.foldl applyPic st).large = (lastMatch Tier.large pics).or st.large := by
  intro pics
  induction pics with
  | nil => intro st; simp [lastMatch]
  | cons p ps ih =>
      intro st
      rw [List.foldl_cons, ih, lastMatch_cons, Option.or_assoc]
      by_cases hp : classifyPic p = some Tier.large <;>
        simp [applyPic_large, hp]

theorem foldl_applyPic_source :
    ∀ (pics : List Picture) (st : Thumbs),
      (pics.foldl applyPic st).source = (lastMatch Tier.large pics).or st.source := by
  intro pics
  induction pics with
  | nil => intro st; simp [lastMatch]
  | cons p ps ih =>
      intro st
      rw [List.foldl_cons, ih, lastMatch_cons, Option.or_assoc]
      by_cases hp : classifyPic p = some Tier.large <;>
        simp [applyPic_source, hp]

theorem foldl_applyPic_medium :
    ∀ (pics : List Picture) (st : Thumbs),
      (pics.foldl applyPic st).medium = (lastMatch Tier.medium pics).or st.medium := by
  intro pics
  induction pics with
  | nil => intro st; simp [lastMatch]
  | cons p ps ih =>
      intro st
      rw [List.foldl_cons, ih, lastMatch_cons, Option.or_assoc]
      by_cases hp : classifyPic p = some Tier.medium <;>
        simp [applyPic_medium, hp]

theorem foldl_applyPic_small :
    ∀ (pics : List Picture) (st : Thumbs),
      (pics.foldl applyPic st).small = (lastMatch Tier.small pics).or st.small := by
  intro pics
  induction pics with
  | nil => intro st; simp [lastMatch]
  | cons p ps ih =>
      intro st
      rw [List.foldl_cons, ih, lastMatch_cons, Option.or_assoc]
      by_cases hp : classifyPic p = some Tier.small <;>
        simp [applyPic_small, hp]

theorem lastMatch_eq_none (t : Tier) (pics : List Picture)
    (h : ∀ p ∈ pics, classifyPic p = none) : lastMatch t pics = none := by
  have : pics.reverse.find? (fun q => decide (classifyPic q = some t)) = none := by
    refine List.find?_eq_none.mpr ?_
    intro q hq
    simp [h q (List.mem_reverse.mp hq)]
  simp [lastMatch, this]

theorem thumbs_eq_empty (th : Thumbs) (hs : th.source = none) (hl : th.large = none)
    (hm : th.medium = none) (hsm : th.small = none) :
    th = ({} : Thumbs) := by
  cases th
  simp_all [Thumbs.mk.injEq]

/-- A URI without a slash resolves no source id (line 116 raises
`IndexError`). -/
theorem srcIdOfUri_no_slash (s : String) (h : s.data.contains '/' = false) :
    srcIdOfUri s = none := by
  have h' : ¬ '/' ∈ s.data := by simpa using h
  simp [srcIdOfUri, h']

/-- A URI ending in a slash resolves the empty source id. -/
theorem srcIdOfUri_trailing_slash (t : String) : srcIdOfUri (t ++ "/") = some "" := by
  have hdata : (t ++ "/").data = t.data ++ ['/'] := rfl
  simp [srcIdOfUri, hdata]

/-! Claim theorems. -/

/-- C1 (counterexample): a page answered by exactly `max_retries` (5)
consecutive 429 responses followed by a 200 success does NOT complete — the
run fails fatally at the fifth 429, before the success is ever requested, so
the claim as stated is false. -/
theorem retry_budget_counterexample :
    (pull_videos_first none
        [rl429, rl429, rl429, rl429, rl429, okPage [sampleVideo] none]).result =
      Except.error (Err.retriesExhausted 5) := by
  simp [pull_videos_first, pull_videos, rl429, okPage, max_retries]

/-- C1 (amended): the budget tolerates `max_retries - 1` (4) consecutive 429
responses — four 429s followed by a 200 complete the fetch with all prior
accumulated records plus the success's (filtered) data, with no duplication
and no loss; a fifth consecutive 429 reaches `max_retries` and fails fatally
with the retry count, producing no result regardless of any responses that
would have followed. -/
theorem retry_budget_amended (ma : Option String) (url : String) (videos : List Video)
    (data : List Video) :
    (pull_videos ma [rl429, rl429, rl429, rl429, okPage data none] url videos 0).result =
        Except.ok (videos ++ keepFiltered ma data)
    ∧ ∀ (rest : List Response) (url2 : String) (videos2 : List Video),
        (pull_videos ma (rl429 :: rl429 :: rl429 :: rl429 :: rl429 :: rest) url2 videos2 0).result =
          Except.error (Err.retriesExhausted 5) := by
  constructor
  · simp [pull_videos, rl429, okPage, max_retries, truthyNext]
  · intro rest url2 videos2
    simp [pull_videos, rl429, max_retries]

/-- C2 (code bug): on a 429 with a parsable reset header, line 82's
`datetime.strptime(...).utcnow()` invokes the classmethod `utcnow` and
therefore yields the current time, discarding the parsed reset timestamp.
The computed offset is `t1 - t2 ≤ 0` for clock reads `t1 ≤ t2`, so the
handler sleeps 0 seconds (clocks equal) or — because `time.sleep` rejects a
negative duration and the `except` catches it — exactly 5 seconds; it never
sleeps the header-derived ≈3 seconds, whatever the header says.  The
absent/unparsable-header fallback of exactly 5 seconds does hold. -/
theorem backoff_sleep_behavior (r t1 t2 : Int) (h : t1 ≤ t2) :
    (backoff_sleep (some r) t1 t2 = 0 ∨ backoff_sleep (some r) t1 t2 = 5)
    ∧ backoff_sleep (some r) t1 t2 ≠ 3
    ∧ backoff_sleep none t1 t2 = 5 := by
  have hnone : backoff_sleep none t1 t2 = 5 := rfl
  have hsome : backoff_sleep (some r) t1 t2 = if t1 - t2 < 0 then 5 else t1 - t2 := rfl
  by_cases hlt : t1 - t2 < 0
  · rw [hsome, if_pos hlt]
    exact ⟨Or.inr rfl, by norm_num, hnone⟩
  · have h0 : t1 - t2 = 0 := by omega
    rw [hsome, if_neg hlt, h0]
    exact ⟨Or.inl rfl, by norm_num, hnone⟩

theorem backoff_sleep_behavior_witness :
    ((100 : Int) ≤ 100)
    ∧ ((backoff_sleep (some 103) 100 100 = 0 ∨ backoff_sleep (some 103) 100 100 = 5)
      ∧ backoff_sleep (some 103) 100 100 ≠ 3
      ∧ backoff_sleep none 100 100 = 5) :=
  ⟨le_refl 100, backoff_sleep_behavior 103 100 100 (le_refl 100)⟩

/-- C3: throughout any run, the accumulator only ever grows by appending:
whatever the run returns equals the records already collected followed by
`newRecords`, in which each 200 page's filtered data occurs exactly once and
a 429 contributes nothing — so no record is appended twice and nothing
already collected is lost or re-appended; the final retry counter equals the
initial one plus the number of 429s consumed, never resetting between pages;
and after a non-exhausting 429 the very next request targets the same URL. -/
theorem no_duplication_invariant (ma : Option String) :
    (∀ (script : List Response) (url : String) (videos : List Video) (retried : Nat)
        (vs : List Video),
        (pull_videos ma script url videos retried).result = Except.ok vs →
        vs = videos ++ newRecords ma script retried)
    ∧ (∀ (script : List Response) (url : String) (videos : List Video) (retried : Nat),
        (pull_videos ma script url videos retried).retried =
          retried + consumed429s script retried)
    ∧ (∀ (resp : Response) (rest : List Response) (url : String) (videos : List Video)
        (retried : Nat),
        resp.status = 429 → retried + 1 < max_retries →
        (pull_videos ma (resp :: rest) url videos retried).trace.take 2 = [url, url]) := by
  refine ⟨pull_result_append ma, pull_retried_eq ma, ?_⟩
  intro resp rest url videos retried h429 hb
  rw [pull_429_retry ma resp rest url videos retried h429 hb]
  obtain ⟨t, ht⟩ := pull_trace_cons ma rest url videos (retried + 1)
  simp [ht]

theorem no_duplication_witness :
    ([sampleVideo] = [] ++ newRecords none [rl429, okPage [sampleVideo] none] 0)
    ∧ ((pull_videos none [rl429, okPage [sampleVideo] none] "u" [] 0).retried =
        0 + consumed429s [rl429, okPage [sampleVideo] none] 0)
    ∧ ((pull_videos none (rl429 :: [okPage [sampleVideo] none]) "u" [] 0).trace.take 2 =
        ["u", "u"]) := by
  obtain ⟨h1, h2, h3⟩ := no_duplication_invariant none
  exact ⟨h1 [rl429, okPage [sampleVideo] none] "u" [] 0 [sampleVideo] rfl,
         h2 [rl429, okPage [sampleVideo] none] "u" [] 0,
         h3 rl429 [okPage [sampleVideo] none] "u" [] 0 rfl (by decide)⟩

/-- C4 (counterexample): passing the empty string as the cutoff value
`modified_after` defeats the filter — line 61's truthiness test treats it as
unset — so a record whose modification timestamp is not greater than the
cutoff (here equal to it) still appears in the result, falsifying the claim
for the cutoff value C = empty string. -/
theorem cutoff_filter_counterexample :
    (pull_videos_first (some "") [okPage [blankVideo] none]).result =
        Except.ok [blankVideo]
    ∧ ¬ ("" < blankVideo.modified_time) :=
  ⟨rfl, by exact lt_irrefl ""⟩

/-- C4 (amended): for every NON-empty cutoff value C passed as
`modified_after`, every record in the fetch result has a modification
timestamp strictly greater than C, and no record with a timestamp less than
or equal to C ever appears; the empty-string cutoff is treated by the code as
no cutoff at all. -/
theorem cutoff_filter_amended (c : String) (hc : ¬ c = "") (script : List Response)
    (vs : List Video)
    (hok : (pull_videos_first (some c) script).result = Except.ok vs) :
    ∀ v ∈ vs, c < v.modified_time := by
  intro v hv
  have hvs := pull_result_append (some c) script first_url [] 0 vs hok
  subst hvs
  exact mem_newRecords_lt c hc script 0 v (by simpa using hv)

theorem cutoff_filter_witness :
    (¬ ("2020" : String) = "") ∧ ("2020" < sampleVideo.modified_time) := by
  refine ⟨by decide, ?_⟩
  exact cutoff_filter_amended "2020" (by decide) [okPage [sampleVideo] none]
    [sampleVideo] rfl sampleVideo (List.mem_singleton.mpr rfl)

/-- C5: for every complete all-success pagination, the fetch succeeds and
the returned sequence's length plus the number of records the cutoff filter
excluded equals the sum of the `data` lengths across all pages — i.e. the
length is the total minus the excluded count (and with no cutoff the excluded
count is zero). -/
theorem length_accounting (ma : Option String) (script : List Response)
    (hclean : isCleanScript script = true) :
    ∃ vs, (pull_videos_first ma script).result = Except.ok vs ∧
      vs.length + excludedCount ma script = totalDataLen script := by
  obtain ⟨hres, -⟩ := pull_clean_run ma script hclean first_url [] 0
  exact ⟨cleanData ma script, by simpa using hres,
    cleanData_length_add_excluded ma script⟩

theorem length_accounting_witness :
    (isCleanScript [okPage [sampleVideo] (some "/p2"), okPage [blankVideo, sampleVideo] none] =
        true)
    ∧ ∃ vs,
        (pull_videos_first (some "2020")
            [okPage [sampleVideo] (some "/p2"), okPage [blankVideo, sampleVideo] none]).result =
          Except.ok vs ∧
        vs.length +
            excludedCount (some "2020")
              [okPage [sampleVideo] (some "/p2"), okPage [blankVideo, sampleVideo] none] =
          totalDataLen [okPage [sampleVideo] (some "/p2"), okPage [blankVideo, sampleVideo] none] := by
  refine ⟨rfl, ?_⟩
  exact length_accounting (some "2020")
    [okPage [sampleVideo] (some "/p2"), okPage [blankVideo, sampleVideo] none] rfl

/-- C6: any response status other than 200 and 429 makes `pull_videos` fail
fatally at once with an error naming the requested URL and the status code:
exactly one request is made (the trace is just this URL, whatever responses
would have followed), no retry happens, and no result is produced. -/
theorem other_status_fatal (ma : Option String) (resp : Response) (rest : List Response)
    (url : String) (videos : List Video) (retried : Nat)
    (h1 : ¬ resp.status = 200) (h2 : ¬ resp.status = 429) :
    pull_videos ma (resp :: rest) url videos retried =
      ⟨[url], retried, Except.error (Err.fatalStatus url resp.status)⟩ :=
  pull_other ma resp rest url videos retried h1 h2

theorem other_status_fatal_witness :
    (¬ resp500.status = 200) ∧ (¬ resp500.status = 429) ∧
    pull_videos none [resp500, okPage [sampleVideo] none] "u" [] 0 =
      ⟨["u"], 0, Except.error (Err.fatalStatus "u" resp500.status)⟩ := by
  refine ⟨by decide, by decide, ?_⟩
  exact other_status_fatal none resp500 [okPage [sampleVideo] none] "u" [] 0
    (by decide) (by decide)

/-- C7: a raw record whose URI is empty or has no path segment (no `/`, so
line 116 cannot resolve a source id) maps to no output record, and removing
it from a batch leaves the transformation of every sibling untouched: the
batch's output is exactly the output of the records before it followed by
the output of the records after it — one bad record never drops its siblings
and never aborts the batch. -/
theorem bad_uri_skipped (appId : String) (pre post : List Video) (bad : Video)
    (h : bad.uri.data.contains '/' = false) :
    transformOne appId bad = none
    ∧ transformVideos appId (pre ++ bad :: post) =
        transformVideos appId pre ++ transformVideos appId post := by
  have hnone : transformOne appId bad = none := by
    simp [transformOne, srcIdOfUri_no_slash bad.uri h]
  refine ⟨hnone, ?_⟩
  simp [transformVideos, List.filterMap_append, List.filterMap_cons, hnone]

theorem bad_uri_skipped_witness :
    (badVideo.uri.data.contains '/' = false)
    ∧ (transformOne "app" badVideo = none
      ∧ transformVideos "app" ([sampleVideo] ++ badVideo :: [slashVideo]) =
          transformVideos "app" [sampleVideo] ++ transformVideos "app" [slashVideo]) :=
  ⟨rfl, bad_uri_skipped "app" [sampleVideo] [slashVideo] badVideo rfl⟩

/-- C8: for every picture list, the thumbnail mapping the loop of
lines 127–134 builds assigns to each tier (large, medium, small) the link of
the last descriptor classified into that tier by the ordered rules of
`classifyPic` (width 1280 or height 720 is large, else width 640 or height
360 is medium, else width 295 or height 166 is small, else ignored), with the
large link also recorded as the canonical source thumbnail; and when no
descriptor matches any tier the mapping is empty. -/
theorem thumbnail_classification (pics : List Picture) :
    ((pics.foldl applyPic {}).large = lastMatch Tier.large pics
      ∧ (pics.foldl applyPic {}).source = lastMatch Tier.large pics
      ∧ (pics.foldl applyPic {}).medium = lastMatch Tier.medium pics
      ∧ (pics.foldl applyPic {}).small = lastMatch Tier.small pics)
    ∧ ((∀ p ∈ pics, classifyPic p = none) →
        pics.foldl applyPic {} = ({} : Thumbs)) := by
  constructor
  · refine ⟨?_, ?_, ?_, ?_⟩ <;>
      simp [foldl_applyPic_large, foldl_applyPic_source, foldl_applyPic_medium,
        foldl_applyPic_small]
  · intro h
    refine thumbs_eq_empty _ ?_ ?_ ?_ ?_ <;>
      simp [foldl_applyPic_large, foldl_applyPic_source, foldl_applyPic_medium,
        foldl_applyPic_small, lastMatch_eq_none _ _ h]

theorem thumbnail_classification_witness :
    (classifyPic picIgnored = none)
    ∧ ([picIgnored].foldl applyPic {} = ({} : Thumbs))
    ∧ (([picIgnored].foldl applyPic {}).large = lastMatch Tier.large [picIgnored]) := by
  refine ⟨by decide, ?_, ?_⟩
  · exact (thumbnail_classification [picIgnored]).2 (by
      intro p hp
      rw [List.mem_singleton.mp hp]
      decide)
  · exact (thumbnail_classification [picIgnored]).1.1

/-- C9: a raw record whose URI is non-empty and ends in a slash is NOT
skipped — the last path segment is the empty string, so the record appears in
the output with `SourceId` the empty string and `OriginalFilename` the bare
prefix Vimeo. -/
theorem trailing_slash_empty_source_id (appId : String) (v : Video) (t : String)
    (h : v.uri = t ++ "/") :
    ∃ r, transformOne appId v = some r ∧ r.SourceId = "" ∧ r.OriginalFilename = "Vimeo" := by
  have hsrc : srcIdOfUri v.uri = some "" := by
    rw [h]; exact srcIdOfUri_trailing_slash t
  unfold transformOne
  rw [hsrc]
  refine ⟨_, rfl, rfl, ?_⟩
  show "Vimeo" ++ "" = ("Vimeo" : String)
  decide

theorem trailing_slash_witness :
    (slashVideo.uri = "/videos" ++ "/")
    ∧ ∃ r, transformOne "app" slashVideo = some r ∧ r.SourceId = "" ∧
        r.OriginalFilename = "Vimeo" :=
  ⟨by decide, trailing_slash_empty_source_id "app" slashVideo "/videos" (by decide)⟩

/-- C10: `OriginalFilename` is the fixed prefix Vimeo concatenated with the
resolved source id (line 123), so it is a deterministic function of the
source id: any two transformed records with the same `SourceId` carry the
identical `OriginalFilename`, whatever the records or contexts were. -/
theorem original_filename_deterministic :
    (∀ (appId : String) (v : Video) (r : OutputRecord),
        transformOne appId v = some r → r.OriginalFilename = "Vimeo" ++ r.SourceId)
    ∧ ∀ (a1 a2 : String) (v1 v2 : Video) (r1 r2 : OutputRecord),
        transformOne a1 v1 = some r1 → transformOne a2 v2 = some r2 →
        r1.SourceId = r2.SourceId → r1.OriginalFilename = r2.OriginalFilename := by
  have key : ∀ (appId : String) (v : Video) (r : OutputRecord),
      transformOne appId v = some r → r.OriginalFilename = "Vimeo" ++ r.SourceId := by
    intro appId v r h
    unfold transformOne at h
    cases hsrc : srcIdOfUri v.uri with
    | none => rw [hsrc] at h; exact absurd h (by simp)
    | some sid =>
        rw [hsrc] at h
        have h2 := Option.some.inj h
        rw [← h2]
  refine ⟨key, ?_⟩
  intro a1 a2 v1 v2 r1 r2 h1 h2 hsid
  rw [key a1 v1 r1 h1, key a2 v2 r2 h2, hsid]

theorem original_filename_witness :
    (transformOne "a" sampleVideo = some sampleOut)
    ∧ sampleOut.OriginalFilename = "Vimeo" ++ sampleOut.SourceId := by
  have h : transformOne "a" sampleVideo = some sampleOut := by decide
  exact ⟨h, original_filename_deterministic.1 "a" sampleVideo sampleOut h⟩
